import Mathlib

/-!
# gimlet: the request-gated reverse proxy (`lib/proxy.go`)

A shallow embedding of `lib/proxy.go`.  The handler code is effectful, so every
Go function is embedded as a computation in the monad `Go`, which records the
sequence of observable actions (a trace of `Event`s) together with the way the
computation ended: it returned a value, or it halted (process exit, panic, or
blocked for ever on a channel receive).

Everything the code obtains from outside the file (the results of the builder,
the runner, the network, the Go standard library) is supplied by the caller of
the model: the collaborators `Builder` and `Runner` are fields of `Proxy`, as
in the source, and the results of library calls are the fields of `Env`.
-/

namespace Gimlet

/-! ## Data model -/

/-- Go `error` values, represented by their message; `none` is `nil`. -/
abbrev GoError := Option String

/-- The part of `url.URL` the proxy reads. -/
structure URL where
  Scheme : String
  Host : String
  deriving DecidableEq, Repr

/-- Go `http.Header`: a map from canonical header names to their values. -/
structure Header where
  entries : List (String × List String)
  deriving DecidableEq, Repr

/-- Go `Header.Get`: the first value stored under `key`, or the empty string. -/
def Header.Get (h : Header) (key : String) : String :=
  match h.entries.lookup key with
  | some (v :: _) => v
  | _ => ""

/-- Go `http.Request`: method, request path, headers and body. -/
structure Request where
  Method : String
  Path : String
  Header : Header
  Body : String
  deriving DecidableEq, Repr

/-- The two sockets of a tunnel: `nc`, the hijacked client connection, and `d`,
the connection dialed to the backend. -/
inductive Conn
  | client
  | backend
  deriving DecidableEq, Repr

/-- Go `http.ResponseWriter` as `proxyWebsocket` sees it: either the writer
does not implement `http.Hijacker`, or it does and `Hijack()` returns the
given error (`none` for success). -/
inductive ResponseWriter
  | plain
  | hijacker (hijackErr : GoError)
  deriving DecidableEq, Repr

/-- Go `net.Listener` obtained from `net.Listen("tcp", addr)`: a TCP listener
that is either still open or already closed. -/
inductive Listener
  | isOpen (addr : String)
  | isClosed (addr : String)
  deriving DecidableEq, Repr

/-- Go `httputil.ReverseProxy` built by `NewSingleHostReverseProxy(url)`. -/
structure ReverseProxy where
  target : URL
  deriving DecidableEq, Repr

/-- Modelled from the spec: the `Builder` interface is declared outside
`proxy.go`; the spec gives it one query, the current build error text, empty
if none.  The field is the text that query returns. -/
structure Builder where
  Errors : String
  deriving DecidableEq, Repr

/-- Modelled from the spec: the `Runner` interface is declared outside
`proxy.go`; the spec gives it one operation, ensure the backend is running,
returning success or a failure reason.  The field is the error that
operation returns (`none` for success). -/
structure Runner where
  Run : GoError
  deriving DecidableEq, Repr

/-- Modelled from the spec: the `Config` struct is declared outside
`proxy.go`; the spec lists the listen address, the listen port and the
backend target URL, which are the three fields `Proxy.Run` reads. -/
structure Config where
  Laddr : String
  Port : Int
  ProxyTo : String
  deriving DecidableEq, Repr

/-- The `Proxy` struct.  Pointer and interface fields that `NewProxy` leaves
unset are `none` (Go `nil`).  The field `to` of the source is `toUrl` here,
`to` being a reserved word. -/
structure Proxy where
  listener : Option Listener
  proxy : Option ReverseProxy
  builder : Builder
  runner : Runner
  toUrl : Option URL
  killOnErr : Bool
  deriving DecidableEq, Repr

/-- Which copy loop a value on `errc` comes from: `cp(d, nc)` copies from the
client to the backend, `cp(nc, d)` from the backend to the client. -/
inductive Direction
  | clientToBackend
  | backendToClient
  deriving DecidableEq, Repr

/-- Results of the calls that leave `proxy.go`. -/
structure Env where
  /-- Go `strings.ToLower`. -/
  toLower : String → String
  /-- Go `url.Parse`. -/
  urlParse : String → Except String URL
  /-- Go `net.Listen("tcp", addr)`: the error, `none` when the listener opens. -/
  netListen : String → GoError
  /-- Go `net.Dial("tcp", addr)`: the error, `none` when the dial succeeds. -/
  netDial : String → GoError
  /-- Go `r.Write(d)`: the error of re-serialising the request to the backend. -/
  requestWrite : GoError
  /-- The values the two copy loops send on `errc`, in the order in which the
  loops terminate; empty when neither loop ever terminates. -/
  errcSends : List (Direction × GoError)

/-! ## Observable actions -/

/-- The observable actions of the code, in the order they happen. -/
inductive Event
  /-- Call `p.builder.Errors()` -/
  | builderErrors
  /-- Call `res.Write(data)` -/
  | resWrite (data : List UInt8)
  /-- Call `p.runner.Run()` -/
  | runnerRun
  /-- Call `logger.Printf` or `logger.Println` with the formatted message -/
  | log (msg : String)
  /-- Call `time.Sleep(d)`, `d` in nanoseconds -/
  | sleep (ns : Int)
  /-- Call `os.Exit(code)` -/
  | osExit (code : Int)
  /-- Call `req.Header.Get(key)` -/
  | headerGet (key : String)
  /-- Call `p.proxy.ServeHTTP(res, req)`: the buffered reverse proxy -/
  | serveHTTP (via : Option ReverseProxy) (req : Request)
  /-- Entry into `proxyWebsocket(res, req, host)`: the stream tunnel -/
  | proxyWebsocket (req : Request) (host : Option URL)
  /-- Call `net.Dial(network, addr)` -/
  | dial (network addr : String)
  /-- Call `http.Error(w, msg, code)` on the original response writer -/
  | httpError (msg : String) (code : Nat)
  /-- Call `hj.Hijack()` -/
  | hijack
  /-- Call `r.Write(c)`: the request serialised onto connection `c` -/
  | requestWrite (req : Request) (c : Conn)
  /-- Statement `go cp(dst, src)`: a copy loop is started -/
  | goCopy (dst src : Conn)
  /-- Receive `<-errc`: it received the value sent by the loop of the given direction -/
  | recvErrc (dir : Direction) (err : GoError)
  /-- Call `c.Close()` on a tunnel socket -/
  | connClose (c : Conn)
  /-- Call `net.Listen(network, addr)` -/
  | listen (network addr : String)
  /-- Statement `go http.Serve(p.listener, handler)` -/
  | goServe
  /-- Call `p.listener.Close()` -/
  | listenerClose
  deriving DecidableEq, Repr

/-! ## The monad of Go computations -/

/-- Ways in which a computation stops without returning. -/
inductive Halt
  | exited (code : Int)
  | panicked (msg : String)
  | blocked
  deriving DecidableEq, Repr

/-- How a computation ended. -/
inductive Res (α : Type)
  | ok (a : α)
  | halt (h : Halt)
  deriving DecidableEq, Repr

/-- A finished run of a Go computation: how it ended and what it did. -/
structure Go (α : Type) where
  res : Res α
  trace : List Event
  deriving DecidableEq, Repr

/-- Sequencing: the second computation runs only if the first returned. -/
def Go.bind {α β : Type} (m : Go α) (f : α → Go β) : Go β :=
  match m.res with
  | .ok a => ⟨(f a).res, m.trace ++ (f a).trace⟩
  | .halt h => ⟨.halt h, m.trace⟩

instance : Monad Go where
  pure a := ⟨.ok a, []⟩
  bind := Go.bind

/-- Perform one observable action. -/
def emit (e : Event) : Go Unit := ⟨.ok (), [e]⟩

/-- Stop without returning. -/
def halt {α : Type} (h : Halt) : Go α := ⟨.halt h, []⟩

/-- Go `defer`: `cleanup` runs when `body` returns or panics, and does not run
when the process exits or the goroutine never gets past `body`. -/
def withDefer {α : Type} (cleanup : Go Unit) (body : Go α) : Go α :=
  match body.res with
  | .ok a => ⟨match cleanup.res with
              | .ok _ => .ok a
              | .halt h => .halt h, body.trace ++ cleanup.trace⟩
  | .halt (.panicked m) => ⟨match cleanup.res with
              | .ok _ => .halt (.panicked m)
              | .halt h => .halt h, body.trace ++ cleanup.trace⟩
  | .halt h => ⟨.halt h, body.trace⟩

/-! ## Library calls -/

/-- Go `len(s)` on a string: its length in bytes. -/
def len (s : String) : Nat := s.utf8ByteSize

/-- Go `[]byte(s)`. -/
def bytes (s : String) : List UInt8 := s.toUTF8.data.toList

/-- Go `time.Second`, in nanoseconds. -/
def Second : Int := 1000000000

/-- Call of `p.builder.Errors()`. -/
def Builder.callErrors (b : Builder) : Go String := do
  emit .builderErrors
  return b.Errors

/-- Call of `p.runner.Run()`; only the error is used by the caller. -/
def Runner.callRun (r : Runner) : Go GoError := do
  emit .runnerRun
  return r.Run

/-- Call of `req.Header.Get(key)`. -/
def Request.headerGet (req : Request) (key : String) : Go String := do
  emit (.headerGet key)
  return req.Header.Get key

/-- Receive `<-errc`: take the first value sent by a copy loop; block while there is
none. -/
def recvErrc (env : Env) : Go GoError :=
  match env.errcSends with
  | [] => halt .blocked
  | (dir, err) :: _ => do
    emit (.recvErrc dir err)
    return err

/-- Go `Listener.Close` of a TCP listener (Go standard library): closing an open
listener succeeds; closing a closed one changes nothing and returns the error
`use of closed network connection`. -/
def Listener.Close : Listener → Listener × GoError
  | .isOpen a => (.isClosed a, none)
  | .isClosed a => (.isClosed a, some "use of closed network connection")

/-! ## The code of `proxy.go` -/

/-- Go `NewProxy`. -/
def NewProxy (builder : Builder) (runner : Runner) (killOnErr : Bool) : Proxy :=
  { listener := none, proxy := none, builder := builder, runner := runner,
    toUrl := none, killOnErr := killOnErr }

/-- Go `proxyWebsocket`.  The two `fmt.Errorf` calls of the source build an error
value that is dropped, so they have no counterpart here. -/
def proxyWebsocket (env : Env) (w : ResponseWriter) (r : Request)
    (host : Option URL) : Go Unit := do
  let some u := host
    | halt (.panicked "invalid memory address or nil pointer dereference")
  emit (.dial "tcp" u.Host)
  let err := env.netDial u.Host
  if err.isSome then
    emit (.httpError "Error contacting backend server." 500)
    return
  match w with
  | .plain =>
    emit (.httpError "Not a hijacker?" 500)
    return
  | .hijacker hijackErr =>
    emit .hijack
    if hijackErr.isSome then
      return
    withDefer (emit (.connClose .client)) <| withDefer (emit (.connClose .backend)) do
      emit (.requestWrite r .backend)
      let err := env.requestWrite
      if err.isSome then
        return
      emit (.goCopy .backend .client)
      emit (.goCopy .client .backend)
      let _ ← recvErrc env

/-- Go `Proxy.defaultHandler`. -/
def Proxy.defaultHandler (env : Env) (p : Proxy) (res : ResponseWriter)
    (req : Request) : Go Unit := do
  let errors ← p.builder.callErrors
  if len errors > 0 then
    emit (.resWrite (bytes errors))
  else
    let err ← p.runner.callRun
    if let some e := err then
      emit (.log ("Error running: " ++ e))
      if p.killOnErr then
        emit (.log "Exiting, because kill-on-error is true")
        emit (.sleep (Second * 5))
        emit (.osExit 1)
        halt (.exited 1)
    if (← (do return env.toLower (← req.headerGet "Upgrade") == "websocket")
          <||> (do return env.toLower (← req.headerGet "Accept") == "text/event-stream")) then
      emit (.proxyWebsocket req p.toUrl)
      proxyWebsocket env res req p.toUrl
    else
      emit (.serveHTTP p.proxy req)

/-- Go `Proxy.Run`: returns the updated proxy and the error. -/
def Proxy.Run (env : Env) (p : Proxy) (config : Config) : Go (Proxy × GoError) := do
  match env.urlParse config.ProxyTo with
  | .error e => return (p, some e)
  | .ok url =>
    let p := { p with proxy := some ⟨url⟩ }
    let p := { p with toUrl := some url }
    let addr := config.Laddr ++ ":" ++ toString config.Port
    emit (.listen "tcp" addr)
    match env.netListen addr with
    | some e => return ({ p with listener := none }, some e)
    | none =>
      let p := { p with listener := some (.isOpen addr) }
      emit .goServe
      return (p, none)

/-- Go `Proxy.Close`: returns the updated proxy and the error of the listener. -/
def Proxy.Close (p : Proxy) : Go (Proxy × GoError) := do
  let some l := p.listener
    | halt (.panicked "invalid memory address or nil pointer dereference")
  emit .listenerClose
  let (l, err) := l.Close
  return ({ p with listener := some l }, err)

/-! ## Concrete environments used to run the model -/

/-- ASCII lower-casing, the behaviour of `strings.ToLower` on ASCII text. -/
def asciiToLower (s : String) : String := ⟨s.data.map Char.toLower⟩

/-- An environment in which every library call succeeds, with ASCII
lower-casing and a client that ends the stream first. -/
def envOk : Env :=
  { toLower := asciiToLower
    urlParse := fun s => .ok ⟨"http", s⟩
    netListen := fun _ => none
    netDial := fun _ => none
    requestWrite := none
    errcSends := [(.clientToBackend, none)] }

/-- The backend target of the concrete runs. -/
def demoBackend : URL := ⟨"http", "localhost:3001"⟩

/-- An environment in which the dial to the backend is refused. -/
def envDialFails : Env :=
  { envOk with netDial := fun _ => some "connection refused" }

/-- An environment in which re-writing the request to the backend fails. -/
def envWriteFails : Env :=
  { envOk with requestWrite := some "broken pipe" }

/-- A request carrying `Upgrade: WebSocket`. -/
def demoReq : Request :=
  { Method := "GET", Path := "/", Header := ⟨[("Upgrade", ["WebSocket"])]⟩, Body := "" }

/-- A request with no `Upgrade` and no matching `Accept` header. -/
def plainReq : Request :=
  { Method := "POST", Path := "/items", Header := ⟨[("Accept", ["text/html"])]⟩, Body := "x" }

/-- A started proxy with fail-fast enabled, a clean build and a healthy runner. -/
def demoProxy : Proxy :=
  { listener := some (.isOpen "localhost:3000"), proxy := some ⟨demoBackend⟩,
    builder := ⟨""⟩, runner := ⟨none⟩, toUrl := some demoBackend, killOnErr := true }

/-- The same proxy while the build is broken. -/
def proxyBuildError : Proxy := { demoProxy with builder := ⟨"syntax error: line 10"⟩ }

/-- The same proxy while the runner fails, fail-fast enabled. -/
def proxyRunFails : Proxy := { demoProxy with runner := ⟨some "exec: not found"⟩ }

/-- The same proxy while the runner fails, fail-fast disabled. -/
def proxyRunFailsNoKill : Proxy := { proxyRunFails with killOnErr := false }

/-- The proxy `p` with a runner that succeeds, everything else unchanged. -/
def Proxy.withRunnerOk (p : Proxy) : Proxy := { p with runner := ⟨none⟩ }

/-- The configuration of the concrete runs. -/
def demoConfig : Config := { Laddr := "localhost", Port := 3000, ProxyTo := "localhost:3001" }

/-! ## Observations on traces -/

/-- The response body: all bytes passed to `res.Write`, in order. -/
def responseBody : List Event → List UInt8
  | [] => []
  | .resWrite d :: t => d ++ responseBody t
  | _ :: t => responseBody t

/-- A call of `res.Write`. -/
def Event.isResWrite : Event → Bool
  | .resWrite _ => true
  | _ => false

/-- A call of `http.Error`, the only action that sets an error status. -/
def Event.isErrorStatus : Event → Bool
  | .httpError _ _ => true
  | _ => false

/-- A 500-class error response written on the original response writer. -/
def Event.isServerError : Event → Bool
  | .httpError _ code => decide (500 ≤ code ∧ code < 600)
  | _ => false

/-- An invocation of `runner.Run`. -/
def Event.isRunnerRun : Event → Bool
  | .runnerRun => true
  | _ => false

/-- A read of a request header, the only input of the classification. -/
def Event.isHeaderGet : Event → Bool
  | .headerGet _ => true
  | _ => false

/-- The request is handed to the stream tunnel. -/
def Event.isTunnel : Event → Bool
  | .proxyWebsocket _ _ => true
  | _ => false

/-- The request is handed to the buffered reverse proxy. -/
def Event.isBuffered : Event → Bool
  | .serveHTTP _ _ => true
  | _ => false

/-- Either forwarding path is entered. -/
def Event.isForward (e : Event) : Bool := e.isTunnel || e.isBuffered

/-- The process is terminated. -/
def Event.isExit : Event → Bool
  | .osExit _ => true
  | _ => false

/-- The actions `proxyWebsocket` itself can perform. -/
def Event.isTunnelAction : Event → Bool
  | .dial _ _ => true
  | .httpError _ _ => true
  | .hijack => true
  | .requestWrite _ _ => true
  | .goCopy _ _ => true
  | .recvErrc _ _ => true
  | .connClose _ => true
  | _ => false

/-- A copy loop is started. -/
def Event.isGoCopy : Event → Bool
  | .goCopy _ _ => true
  | _ => false

/-- The actions of `defaultHandler` before the classification, on the paths
that reach it: the build gate is queried, the runner is invoked, and a failure
of the runner is logged. -/
def preludeTrace (p : Proxy) : List Event :=
  .builderErrors :: .runnerRun ::
    (match p.runner.Run with
     | some e => [.log ("Error running: " ++ e)]
     | none => [])

/-- The classification of the spec: a request is a stream-upgrade request when
the lower-cased `Upgrade` header is `websocket` or the lower-cased `Accept`
header is `text/event-stream`. -/
def specIsStreamUpgrade (env : Env) (req : Request) : Prop :=
  env.toLower (req.Header.Get "Upgrade") = "websocket" ∨
    env.toLower (req.Header.Get "Accept") = "text/event-stream"

instance (env : Env) (req : Request) : Decidable (specIsStreamUpgrade env req) := by
  unfold specIsStreamUpgrade
  infer_instance

/-! ## Lemmas on the library model -/

theorem len_pos_iff (s : String) : 0 < len s ↔ s ≠ "" := by
  cases s with
  | mk cs =>
    cases cs with
    | nil => simp [len, String.utf8ByteSize, String.utf8ByteSize.go]
    | cons c cs =>
      have hc := Char.utf8Size_pos c
      have hne : (String.mk (c :: cs)) ≠ "" := by
        intro h
        have := congrArg String.data h
        simp at this
      simp only [len, String.utf8ByteSize, String.utf8ByteSize.go, ne_eq, hne,
        not_false_eq_true, iff_true]
      omega

theorem len_empty : ¬ 0 < len "" := by
  rw [len_pos_iff]; simp

/-! ## The paths through `proxyWebsocket` -/

theorem proxyWebsocket_nil_host (env : Env) (w : ResponseWriter) (r : Request) :
    proxyWebsocket env w r none
      = ⟨.halt (.panicked "invalid memory address or nil pointer dereference"), []⟩ := by
  simp [proxyWebsocket, halt]

theorem proxyWebsocket_dial_error (env : Env) (w : ResponseWriter) (r : Request) (u : URL)
    (e : String) (hd : env.netDial u.Host = some e) :
    proxyWebsocket env w r (some u)
      = ⟨.ok (), [.dial "tcp" u.Host, .httpError "Error contacting backend server." 500]⟩ := by
  simp [proxyWebsocket, hd, bind, Go.bind, emit, pure]

theorem proxyWebsocket_not_hijacker (env : Env) (r : Request) (u : URL)
    (hd : env.netDial u.Host = none) :
    proxyWebsocket env .plain r (some u)
      = ⟨.ok (), [.dial "tcp" u.Host, .httpError "Not a hijacker?" 500]⟩ := by
  simp [proxyWebsocket, hd, bind, Go.bind, emit, pure]

theorem proxyWebsocket_hijack_error (env : Env) (r : Request) (u : URL) (e : String)
    (hd : env.netDial u.Host = none) :
    proxyWebsocket env (.hijacker (some e)) r (some u)
      = ⟨.ok (), [.dial "tcp" u.Host, .hijack]⟩ := by
  simp [proxyWebsocket, hd, bind, Go.bind, emit, pure]

theorem proxyWebsocket_write_error (env : Env) (r : Request) (u : URL) (e : String)
    (hd : env.netDial u.Host = none) (hw : env.requestWrite = some e) :
    proxyWebsocket env (.hijacker none) r (some u)
      = ⟨.ok (), [.dial "tcp" u.Host, .hijack, .requestWrite r .backend,
          .connClose .backend, .connClose .client]⟩ := by
  simp [proxyWebsocket, hd, hw, bind, Go.bind, emit, pure, withDefer]

theorem proxyWebsocket_blocked (env : Env) (r : Request) (u : URL)
    (hd : env.netDial u.Host = none) (hw : env.requestWrite = none)
    (hc : env.errcSends = []) :
    proxyWebsocket env (.hijacker none) r (some u)
      = ⟨.halt .blocked, [.dial "tcp" u.Host, .hijack, .requestWrite r .backend,
          .goCopy .backend .client, .goCopy .client .backend]⟩ := by
  simp [proxyWebsocket, hd, hw, hc, bind, Go.bind, emit, pure, withDefer, recvErrc, halt]

theorem proxyWebsocket_copy_ended (env : Env) (r : Request) (u : URL)
    (dir : Direction) (err : GoError) (rest : List (Direction × GoError))
    (hd : env.netDial u.Host = none) (hw : env.requestWrite = none)
    (hc : env.errcSends = (dir, err) :: rest) :
    proxyWebsocket env (.hijacker none) r (some u)
      = ⟨.ok (), [.dial "tcp" u.Host, .hijack, .requestWrite r .backend,
          .goCopy .backend .client, .goCopy .client .backend, .recvErrc dir err,
          .connClose .backend, .connClose .client]⟩ := by
  simp [proxyWebsocket, hd, hw, hc, bind, Go.bind, emit, pure, withDefer, recvErrc]

/-- Every action in a run of `proxyWebsocket` is one of its own actions: the
tunnel never calls the builder, the runner, the logger or a forwarder. -/
theorem proxyWebsocket_trace_actions (env : Env) (w : ResponseWriter) (r : Request)
    (host : Option URL) :
    ∀ e ∈ (proxyWebsocket env w r host).trace, e.isTunnelAction = true := by
  cases host with
  | none => simp [proxyWebsocket_nil_host]
  | some u =>
    cases hd : env.netDial u.Host with
    | some e => simp [proxyWebsocket_dial_error env w r u e hd, Event.isTunnelAction]
    | none =>
      cases w with
      | plain => simp [proxyWebsocket_not_hijacker env r u hd, Event.isTunnelAction]
      | hijacker herr =>
        cases herr with
        | some e => simp [proxyWebsocket_hijack_error env r u e hd, Event.isTunnelAction]
        | none =>
          cases hw : env.requestWrite with
          | some e => simp [proxyWebsocket_write_error env r u e hd hw, Event.isTunnelAction]
          | none =>
            cases hc : env.errcSends with
            | nil => simp [proxyWebsocket_blocked env r u hd hw hc, Event.isTunnelAction]
            | cons x rest =>
              obtain ⟨dir, err⟩ := x
              simp [proxyWebsocket_copy_ended env r u dir err rest hd hw hc,
                Event.isTunnelAction]

/-- The tunnel never terminates the process. -/
theorem proxyWebsocket_not_exited (env : Env) (w : ResponseWriter) (r : Request)
    (host : Option URL) (code : Int) :
    (proxyWebsocket env w r host).res ≠ .halt (.exited code) := by
  cases host with
  | none => simp [proxyWebsocket_nil_host]
  | some u =>
    cases hd : env.netDial u.Host with
    | some e => simp [proxyWebsocket_dial_error env w r u e hd]
    | none =>
      cases w with
      | plain => simp [proxyWebsocket_not_hijacker env r u hd]
      | hijacker herr =>
        cases herr with
        | some e => simp [proxyWebsocket_hijack_error env r u e hd]
        | none =>
          cases hw : env.requestWrite with
          | some e => simp [proxyWebsocket_write_error env r u e hd hw]
          | none =>
            cases hc : env.errcSends with
            | nil => simp [proxyWebsocket_blocked env r u hd hw hc]
            | cons x rest =>
              obtain ⟨dir, err⟩ := x
              simp [proxyWebsocket_copy_ended env r u dir err rest hd hw hc]

/-! ## The paths through `defaultHandler` -/

theorem defaultHandler_build_error (env : Env) (p : Proxy) (res : ResponseWriter)
    (req : Request) (h : p.builder.Errors ≠ "") :
    Proxy.defaultHandler env p res req
      = ⟨.ok (), [.builderErrors, .resWrite (bytes p.builder.Errors)]⟩ := by
  have h1 : 0 < len p.builder.Errors := (len_pos_iff _).2 h
  simp [Proxy.defaultHandler, Builder.callErrors, h1, bind, Go.bind, emit, pure]

theorem defaultHandler_killed (env : Env) (p : Proxy) (res : ResponseWriter)
    (req : Request) (e : String) (hb : p.builder.Errors = "")
    (hr : p.runner.Run = some e) (hk : p.killOnErr = true) :
    Proxy.defaultHandler env p res req
      = ⟨.halt (.exited 1), [.builderErrors, .runnerRun, .log ("Error running: " ++ e),
          .log "Exiting, because kill-on-error is true", .sleep (5 * 1000000000),
          .osExit 1]⟩ := by
  simp [Proxy.defaultHandler, Builder.callErrors, Runner.callRun, hb, len_empty, hr, hk,
    bind, Go.bind, emit, pure, halt, Second]

theorem defaultHandler_tunnel_upgrade (env : Env) (p : Proxy) (res : ResponseWriter)
    (req : Request) (hb : p.builder.Errors = "")
    (hr : p.runner.Run = none ∨ p.killOnErr = false)
    (hu : env.toLower (req.Header.Get "Upgrade") = "websocket") :
    Proxy.defaultHandler env p res req
      = ⟨(proxyWebsocket env res req p.toUrl).res,
          preludeTrace p ++ [.headerGet "Upgrade", .proxyWebsocket req p.toUrl] ++
            (proxyWebsocket env res req p.toUrl).trace⟩ := by
  rcases hr with hr | hk
  · simp [Proxy.defaultHandler, Builder.callErrors, Runner.callRun, Request.headerGet, hb,
      len_empty, hr, hu, preludeTrace, orM, bind, Go.bind, emit, pure, toBool]
  · cases hr : p.runner.Run <;>
    simp [Proxy.defaultHandler, Builder.callErrors, Runner.callRun, Request.headerGet, hb,
      len_empty, hr, hk, hu, preludeTrace, orM, bind, Go.bind, emit, pure, toBool]

theorem defaultHandler_tunnel_accept (env : Env) (p : Proxy) (res : ResponseWriter)
    (req : Request) (hb : p.builder.Errors = "")
    (hr : p.runner.Run = none ∨ p.killOnErr = false)
    (hu : env.toLower (req.Header.Get "Upgrade") ≠ "websocket")
    (ha : env.toLower (req.Header.Get "Accept") = "text/event-stream") :
    Proxy.defaultHandler env p res req
      = ⟨(proxyWebsocket env res req p.toUrl).res,
          preludeTrace p ++
            [.headerGet "Upgrade", .headerGet "Accept", .proxyWebsocket req p.toUrl] ++
            (proxyWebsocket env res req p.toUrl).trace⟩ := by
  have hu : (env.toLower (req.Header.Get "Upgrade") == "websocket") = false :=
    beq_eq_false_iff_ne.2 hu
  rcases hr with hr | hk
  · simp [Proxy.defaultHandler, Builder.callErrors, Runner.callRun, Request.headerGet, hb,
      len_empty, hr, hu, ha, preludeTrace, orM, bind, Go.bind, emit, pure, toBool]
  · cases hr : p.runner.Run <;>
    simp [Proxy.defaultHandler, Builder.callErrors, Runner.callRun, Request.headerGet, hb,
      len_empty, hr, hk, hu, ha, preludeTrace, orM, bind, Go.bind, emit, pure, toBool]

theorem defaultHandler_buffered (env : Env) (p : Proxy) (res : ResponseWriter)
    (req : Request) (hb : p.builder.Errors = "")
    (hr : p.runner.Run = none ∨ p.killOnErr = false)
    (hu : env.toLower (req.Header.Get "Upgrade") ≠ "websocket")
    (ha : env.toLower (req.Header.Get "Accept") ≠ "text/event-stream") :
    Proxy.defaultHandler env p res req
      = ⟨.ok (), preludeTrace p ++
            [.headerGet "Upgrade", .headerGet "Accept", .serveHTTP p.proxy req]⟩ := by
  have hu : (env.toLower (req.Header.Get "Upgrade") == "websocket") = false :=
    beq_eq_false_iff_ne.2 hu
  have ha : (env.toLower (req.Header.Get "Accept") == "text/event-stream") = false :=
    beq_eq_false_iff_ne.2 ha
  rcases hr with hr | hk
  · simp [Proxy.defaultHandler, Builder.callErrors, Runner.callRun, Request.headerGet, hb,
      len_empty, hr, hu, ha, preludeTrace, orM, bind, Go.bind, emit, pure, toBool]
  · cases hr : p.runner.Run <;>
    simp [Proxy.defaultHandler, Builder.callErrors, Runner.callRun, Request.headerGet, hb,
      len_empty, hr, hk, hu, ha, preludeTrace, orM, bind, Go.bind, emit, pure, toBool]

/-! ## Build gate -/

/-- C1: when `builder.Errors()` returns a non-empty text, `defaultHandler`
returns after exactly one `res.Write` whose bytes are that text: the response
body is the text, no error status is set, `runner.Run` is not invoked, and the
request is neither classified, nor buffered-proxied, nor tunneled. -/
theorem defaultHandler_build_error_short_circuit (env : Env) (p : Proxy)
    (res : ResponseWriter) (req : Request) (h : p.builder.Errors ≠ "") :
    Proxy.defaultHandler env p res req
        = ⟨.ok (), [.builderErrors, .resWrite (bytes p.builder.Errors)]⟩ ∧
      responseBody (Proxy.defaultHandler env p res req).trace = bytes p.builder.Errors ∧
      (Proxy.defaultHandler env p res req).trace.countP Event.isResWrite = 1 ∧
      (∀ e ∈ (Proxy.defaultHandler env p res req).trace,
        e.isErrorStatus = false ∧ e.isRunnerRun = false ∧ e.isForward = false ∧
          e.isTunnelAction = false) := by
  rw [defaultHandler_build_error env p res req h]
  simp [responseBody, Event.isResWrite, Event.isErrorStatus, Event.isRunnerRun,
    Event.isForward, Event.isTunnel, Event.isBuffered, Event.isTunnelAction]

theorem defaultHandler_build_error_short_circuit_witness :
    proxyBuildError.builder.Errors ≠ "" ∧
      (Proxy.defaultHandler envOk proxyBuildError (.hijacker none) demoReq
          = ⟨.ok (), [.builderErrors, .resWrite (bytes proxyBuildError.builder.Errors)]⟩ ∧
        responseBody (Proxy.defaultHandler envOk proxyBuildError (.hijacker none) demoReq).trace
          = bytes proxyBuildError.builder.Errors ∧
        (Proxy.defaultHandler envOk proxyBuildError (.hijacker none) demoReq).trace.countP
          Event.isResWrite = 1 ∧
        (∀ e ∈ (Proxy.defaultHandler envOk proxyBuildError (.hijacker none) demoReq).trace,
          e.isErrorStatus = false ∧ e.isRunnerRun = false ∧ e.isForward = false ∧
            e.isTunnelAction = false)) :=
  ⟨by decide,
    defaultHandler_build_error_short_circuit envOk proxyBuildError (.hijacker none) demoReq
      (by decide)⟩

/-! ## Fail-fast policy -/

/-- C4: with `killOnErr` set, an empty build error text and a failing
`runner.Run`, `defaultHandler` logs the failure, then sleeps
`time.Second * 5` (five seconds, in nanoseconds), then calls `os.Exit(1)`,
and the process ends with status 1; the request is never classified and
neither forwarder is invoked. -/
theorem defaultHandler_fail_fast_exit (env : Env) (p : Proxy) (res : ResponseWriter)
    (req : Request) (e : String) (hb : p.builder.Errors = "")
    (hr : p.runner.Run = some e) (hk : p.killOnErr = true) :
    Proxy.defaultHandler env p res req
        = ⟨.halt (.exited 1),
            [.builderErrors, .runnerRun, .log ("Error running: " ++ e),
              .log "Exiting, because kill-on-error is true", .sleep (5 * 1000000000),
              .osExit 1]⟩ ∧
      (∀ ev ∈ (Proxy.defaultHandler env p res req).trace,
        ev.isHeaderGet = false ∧ ev.isForward = false ∧ ev.isTunnelAction = false) := by
  rw [defaultHandler_killed env p res req e hb hr hk]
  simp [Event.isHeaderGet, Event.isForward, Event.isTunnel, Event.isBuffered,
    Event.isTunnelAction]

theorem defaultHandler_fail_fast_exit_witness :
    (proxyRunFails.builder.Errors = "" ∧ proxyRunFails.runner.Run = some "exec: not found" ∧
      proxyRunFails.killOnErr = true) ∧
      (Proxy.defaultHandler envOk proxyRunFails (.hijacker none) demoReq
          = ⟨.halt (.exited 1),
              [.builderErrors, .runnerRun, .log ("Error running: " ++ "exec: not found"),
                .log "Exiting, because kill-on-error is true", .sleep (5 * 1000000000),
                .osExit 1]⟩ ∧
        (∀ ev ∈ (Proxy.defaultHandler envOk proxyRunFails (.hijacker none) demoReq).trace,
          ev.isHeaderGet = false ∧ ev.isForward = false ∧ ev.isTunnelAction = false)) :=
  ⟨by decide,
    defaultHandler_fail_fast_exit envOk proxyRunFails (.hijacker none) demoReq
      "exec: not found" (by decide) (by decide) (by decide)⟩

/-! ## Stream tunnel: setup failures -/

/-- C6: when the dial to the backend fails, `proxyWebsocket` writes one
500 error response on the original response writer and returns: the client
connection is not hijacked, nothing is written to a backend connection, no
copy loop is started and no socket is closed. -/
theorem proxyWebsocket_dial_failure (env : Env) (w : ResponseWriter) (r : Request)
    (u : URL) (e : String) (hd : env.netDial u.Host = some e) :
    proxyWebsocket env w r (some u)
        = ⟨.ok (), [.dial "tcp" u.Host, .httpError "Error contacting backend server." 500]⟩ ∧
      (proxyWebsocket env w r (some u)).trace.countP Event.isServerError = 1 ∧
      Event.hijack ∉ (proxyWebsocket env w r (some u)).trace ∧
      (∀ ev ∈ (proxyWebsocket env w r (some u)).trace,
        (∀ q c, ev ≠ .requestWrite q c) ∧ ev.isGoCopy = false) := by
  rw [proxyWebsocket_dial_error env w r u e hd]
  simp [Event.isServerError, Event.isGoCopy]

theorem proxyWebsocket_dial_failure_witness :
    envDialFails.netDial demoBackend.Host = some "connection refused" ∧
      (proxyWebsocket envDialFails (.hijacker none) demoReq (some demoBackend)
          = ⟨.ok (), [.dial "tcp" demoBackend.Host,
              .httpError "Error contacting backend server." 500]⟩ ∧
        (proxyWebsocket envDialFails (.hijacker none) demoReq (some demoBackend)).trace.countP
          Event.isServerError = 1 ∧
        Event.hijack ∉
          (proxyWebsocket envDialFails (.hijacker none) demoReq (some demoBackend)).trace ∧
        (∀ ev ∈ (proxyWebsocket envDialFails (.hijacker none) demoReq (some demoBackend)).trace,
          (∀ q c, ev ≠ .requestWrite q c) ∧ ev.isGoCopy = false)) :=
  ⟨rfl,
    proxyWebsocket_dial_failure envDialFails (.hijacker none) demoReq demoBackend
      "connection refused" rfl⟩

/-- C7: a run of the code on a writer whose `Hijack()` returns an error.  After
a successful dial the tunnel calls `Hijack`, and on its error returns without
any `http.Error`: no 500-class response is written.  On the sibling path, a
writer that is not an `http.Hijacker`, the 500 response is written. -/
theorem proxyWebsocket_hijack_error_no_response :
    proxyWebsocket envOk (.hijacker (some "hijack failed")) demoReq (some demoBackend)
        = ⟨.ok (), [.dial "tcp" "localhost:3001", .hijack]⟩ ∧
      (proxyWebsocket envOk (.hijacker (some "hijack failed")) demoReq
        (some demoBackend)).trace.countP Event.isServerError = 0 ∧
      (proxyWebsocket envOk .plain demoReq (some demoBackend)).trace.countP
        Event.isServerError = 1 := by
  decide

/-- C10: a run of the code on a writer that is not an `http.Hijacker`, and one
on a writer whose `Hijack()` fails.  In both the dial succeeds and
`proxyWebsocket` returns without `d.Close()`: the backend connection is left
open.  On the sibling path where re-writing the request fails, it is closed. -/
theorem proxyWebsocket_backend_not_closed :
    proxyWebsocket envOk .plain demoReq (some demoBackend)
        = ⟨.ok (), [.dial "tcp" "localhost:3001", .httpError "Not a hijacker?" 500]⟩ ∧
      Event.connClose .backend ∉
        (proxyWebsocket envOk .plain demoReq (some demoBackend)).trace ∧
      Event.connClose .backend ∉
        (proxyWebsocket envOk (.hijacker (some "hijack failed")) demoReq
          (some demoBackend)).trace ∧
      Event.connClose .backend ∈
        (proxyWebsocket envWriteFails (.hijacker none) demoReq (some demoBackend)).trace := by
  decide

/-! ## Stream tunnel: teardown -/

/-- C8: in a tunnel whose client connection was hijacked, if re-writing the
request to the backend fails, or as soon as `errc` delivers the result of the
copy loop that terminates first (either direction, with end-of-stream or with
an error, whatever the other loop does later), `proxyWebsocket` returns and its
last two actions close the backend connection and the hijacked client
connection.  When the re-write fails no copy loop is started. -/
theorem proxyWebsocket_joint_teardown (env : Env) (r : Request) (u : URL)
    (hd : env.netDial u.Host = none)
    (hend : env.requestWrite ≠ none ∨ env.errcSends ≠ []) :
    (proxyWebsocket env (.hijacker none) r (some u)).res = .ok () ∧
      (∃ pre, (proxyWebsocket env (.hijacker none) r (some u)).trace
          = pre ++ [.connClose .backend, .connClose .client]) ∧
      (env.requestWrite ≠ none →
        (proxyWebsocket env (.hijacker none) r (some u)).trace
          = [.dial "tcp" u.Host, .hijack, .requestWrite r .backend,
              .connClose .backend, .connClose .client]) ∧
      (env.requestWrite = none → ∀ dir err rest, env.errcSends = (dir, err) :: rest →
        (proxyWebsocket env (.hijacker none) r (some u)).trace
          = [.dial "tcp" u.Host, .hijack, .requestWrite r .backend,
              .goCopy .backend .client, .goCopy .client .backend, .recvErrc dir err,
              .connClose .backend, .connClose .client]) := by
  cases hw : env.requestWrite with
  | some e =>
    rw [proxyWebsocket_write_error env r u e hd hw]
    refine ⟨rfl, ⟨[.dial "tcp" u.Host, .hijack, .requestWrite r .backend], rfl⟩, ?_, ?_⟩
    · intro _; rfl
    · intro h; cases h
  | none =>
    cases hc : env.errcSends with
    | nil => simp [hw, hc] at hend
    | cons x rest =>
      obtain ⟨dir, err⟩ := x
      rw [proxyWebsocket_copy_ended env r u dir err rest hd hw hc]
      refine ⟨rfl, ⟨[.dial "tcp" u.Host, .hijack, .requestWrite r .backend,
        .goCopy .backend .client, .goCopy .client .backend, .recvErrc dir err], rfl⟩, ?_, ?_⟩
      · intro h; exact absurd rfl h
      · intro _ dir2 err2 rest2 h
        simp only [List.cons.injEq, Prod.mk.injEq] at h
        obtain ⟨⟨h1, h2⟩, _⟩ := h
        subst h1 h2
        rfl

theorem proxyWebsocket_joint_teardown_witness :
    (envOk.netDial demoBackend.Host = none ∧
      (envOk.requestWrite ≠ none ∨ envOk.errcSends ≠ [])) ∧
      ((proxyWebsocket envOk (.hijacker none) demoReq (some demoBackend)).res = .ok () ∧
      (∃ pre, (proxyWebsocket envOk (.hijacker none) demoReq (some demoBackend)).trace
          = pre ++ [.connClose .backend, .connClose .client]) ∧
      (envOk.requestWrite ≠ none →
        (proxyWebsocket envOk (.hijacker none) demoReq (some demoBackend)).trace
          = [.dial "tcp" demoBackend.Host, .hijack, .requestWrite demoReq .backend,
              .connClose .backend, .connClose .client]) ∧
      (envOk.requestWrite = none → ∀ dir err rest, envOk.errcSends = (dir, err) :: rest →
        (proxyWebsocket envOk (.hijacker none) demoReq (some demoBackend)).trace
          = [.dial "tcp" demoBackend.Host, .hijack, .requestWrite demoReq .backend,
              .goCopy .backend .client, .goCopy .client .backend, .recvErrc dir err,
              .connClose .backend, .connClose .client])) :=
  ⟨⟨rfl, Or.inr (by decide)⟩,
    proxyWebsocket_joint_teardown envOk demoReq demoBackend rfl (Or.inr (by decide))⟩

/-! ## Gateway lifecycle -/

theorem run_ok_listener (env : Env) (p : Proxy) (config : Config) (p1 : Proxy)
    (hrun : (Proxy.Run env p config).res = .ok (p1, none)) :
    p1.listener = some (.isOpen (config.Laddr ++ ":" ++ toString config.Port)) := by
  unfold Proxy.Run at hrun
  cases hp : env.urlParse config.ProxyTo with
  | error e => simp [hp, pure] at hrun
  | ok url =>
    cases hl : env.netListen (config.Laddr ++ ":" ++ toString config.Port) with
    | some e => simp [hp, hl, bind, Go.bind, emit, pure] at hrun
    | none =>
      simp [hp, hl, bind, Go.bind, emit, pure] at hrun
      rw [← hrun]

/-- C9: after a successful `Run`, two calls of `Close` in a row both return
without a panic: the first closes the listener, the second leaves the proxy as
it is and returns the error `use of closed network connection`; every field
of the proxy other than the listener keeps its value. -/
theorem close_twice_after_run (env : Env) (p : Proxy) (config : Config) (p1 : Proxy)
    (hrun : (Proxy.Run env p config).res = .ok (p1, none)) :
    ∃ p2 : Proxy,
      (Proxy.Close p1).res = .ok (p2, none) ∧
      (Proxy.Close p2).res = .ok (p2, some "use of closed network connection") ∧
      p2.listener = some (.isClosed (config.Laddr ++ ":" ++ toString config.Port)) ∧
      p2.proxy = p1.proxy ∧ p2.builder = p1.builder ∧ p2.runner = p1.runner ∧
      p2.toUrl = p1.toUrl ∧ p2.killOnErr = p1.killOnErr := by
  have hl := run_ok_listener env p config p1 hrun
  let l2 : Listener := .isClosed (config.Laddr ++ ":" ++ toString config.Port)
  refine ⟨{ p1 with listener := some l2 }, ?_, ?_, rfl, rfl, rfl, rfl, rfl, rfl⟩
  · simp [Proxy.Close, hl, Listener.Close, bind, Go.bind, emit, pure]
  · simp [Proxy.Close, Listener.Close, bind, Go.bind, emit, pure]

theorem close_twice_after_run_witness :
    (Proxy.Run envOk (NewProxy ⟨""⟩ ⟨none⟩ true) demoConfig).res = .ok (demoProxy, none) ∧
      ∃ p2 : Proxy,
        (Proxy.Close demoProxy).res = .ok (p2, none) ∧
        (Proxy.Close p2).res = .ok (p2, some "use of closed network connection") ∧
        p2.listener
          = some (.isClosed (demoConfig.Laddr ++ ":" ++ toString demoConfig.Port)) ∧
        p2.proxy = demoProxy.proxy ∧ p2.builder = demoProxy.builder ∧
        p2.runner = demoProxy.runner ∧ p2.toUrl = demoProxy.toUrl ∧
        p2.killOnErr = demoProxy.killOnErr :=
  ⟨by decide,
    close_twice_after_run envOk (NewProxy ⟨""⟩ ⟨none⟩ true) demoConfig demoProxy (by decide)⟩

/-! ## Classification and forwarding -/

theorem proxyWebsocket_countP_zero (env : Env) (w : ResponseWriter) (r : Request)
    (host : Option URL) (q : Event → Bool)
    (hq : ∀ e : Event, e.isTunnelAction = true → q e = false) :
    (proxyWebsocket env w r host).trace.countP q = 0 := by
  rw [List.countP_eq_zero]
  intro e he
  simp [hq e (proxyWebsocket_trace_actions env w r host e he)]

theorem isTunnel_of_action (e : Event) (h : e.isTunnelAction = true) : e.isTunnel = false := by
  cases e <;> simp_all [Event.isTunnelAction, Event.isTunnel]

theorem isBuffered_of_action (e : Event) (h : e.isTunnelAction = true) :
    e.isBuffered = false := by
  cases e <;> simp_all [Event.isTunnelAction, Event.isBuffered]

theorem isRunnerRun_of_action (e : Event) (h : e.isTunnelAction = true) :
    e.isRunnerRun = false := by
  cases e <;> simp_all [Event.isTunnelAction, Event.isRunnerRun]

theorem isExit_of_action (e : Event) (h : e.isTunnelAction = true) : e.isExit = false := by
  cases e <;> simp_all [Event.isTunnelAction, Event.isExit]

theorem preludeTrace_countP_tunnel (p : Proxy) :
    (preludeTrace p).countP Event.isTunnel = 0 := by
  unfold preludeTrace
  cases p.runner.Run <;> simp [Event.isTunnel]

theorem preludeTrace_countP_buffered (p : Proxy) :
    (preludeTrace p).countP Event.isBuffered = 0 := by
  unfold preludeTrace
  cases p.runner.Run <;> simp [Event.isBuffered]

/-- On the paths that reach the forwarding step, the forwarder chosen by the
classification is invoked once and the other one is not invoked. -/
theorem forward_counts (env : Env) (p : Proxy) (res : ResponseWriter) (req : Request)
    (hb : p.builder.Errors = "") (hr : p.runner.Run = none ∨ p.killOnErr = false) :
    (specIsStreamUpgrade env req →
        (Proxy.defaultHandler env p res req).trace.countP Event.isTunnel = 1 ∧
        (Proxy.defaultHandler env p res req).trace.countP Event.isBuffered = 0 ∧
        Event.proxyWebsocket req p.toUrl ∈ (Proxy.defaultHandler env p res req).trace) ∧
      (¬ specIsStreamUpgrade env req →
        (Proxy.defaultHandler env p res req).trace.countP Event.isTunnel = 0 ∧
        (Proxy.defaultHandler env p res req).trace.countP Event.isBuffered = 1 ∧
        Event.serveHTTP p.proxy req ∈ (Proxy.defaultHandler env p res req).trace) := by
  have ht := proxyWebsocket_countP_zero env res req p.toUrl Event.isTunnel isTunnel_of_action
  have hf := proxyWebsocket_countP_zero env res req p.toUrl Event.isBuffered
    isBuffered_of_action
  have pt := preludeTrace_countP_tunnel p
  have pf := preludeTrace_countP_buffered p
  by_cases hu : env.toLower (req.Header.Get "Upgrade") = "websocket"
  · have hs : specIsStreamUpgrade env req := Or.inl hu
    rw [defaultHandler_tunnel_upgrade env p res req hb hr hu]
    simp [hs, List.countP_append, List.countP_cons, ht, hf, pt, pf, Event.isTunnel,
      Event.isBuffered]
  · by_cases ha : env.toLower (req.Header.Get "Accept") = "text/event-stream"
    · have hs : specIsStreamUpgrade env req := Or.inr ha
      rw [defaultHandler_tunnel_accept env p res req hb hr hu ha]
      simp [hs, List.countP_append, List.countP_cons, ht, hf, pt, pf, Event.isTunnel,
        Event.isBuffered]
    · have hs : ¬ specIsStreamUpgrade env req := by
        intro h
        rcases h with h | h
        · exact hu h
        · exact ha h
      rw [defaultHandler_buffered env p res req hb hr hu ha]
      simp [hs, List.countP_append, List.countP_cons, pt, pf, Event.isTunnel,
        Event.isBuffered]

/-- C2: for a request that reaches the forwarding step (the build error text is
empty, and the runner succeeded or `killOnErr` is off), `defaultHandler` hands
the request to `proxyWebsocket` exactly when the lower-cased `Upgrade` header
is `websocket` or the lower-cased `Accept` header is `text/event-stream`, and
to the buffered reverse proxy otherwise.  The chosen forwarder is invoked once
and the other not at all (also when both headers match), and a second request
with the same headers, whatever its method, path and body, is forwarded the
same way. -/
theorem defaultHandler_classification (env : Env) (p : Proxy) (res : ResponseWriter)
    (req : Request) (hb : p.builder.Errors = "")
    (hr : p.runner.Run = none ∨ p.killOnErr = false) :
    ((Proxy.defaultHandler env p res req).trace.countP Event.isTunnel = 1 ↔
        specIsStreamUpgrade env req) ∧
      ((Proxy.defaultHandler env p res req).trace.countP Event.isBuffered = 1 ↔
        ¬ specIsStreamUpgrade env req) ∧
      (specIsStreamUpgrade env req →
        (Proxy.defaultHandler env p res req).trace.countP Event.isTunnel = 1 ∧
        (Proxy.defaultHandler env p res req).trace.countP Event.isBuffered = 0 ∧
        Event.proxyWebsocket req p.toUrl ∈ (Proxy.defaultHandler env p res req).trace) ∧
      (¬ specIsStreamUpgrade env req →
        (Proxy.defaultHandler env p res req).trace.countP Event.isTunnel = 0 ∧
        (Proxy.defaultHandler env p res req).trace.countP Event.isBuffered = 1 ∧
        Event.serveHTTP p.proxy req ∈ (Proxy.defaultHandler env p res req).trace) ∧
      (∀ req2 : Request, req2.Header = req.Header →
        (Proxy.defaultHandler env p res req2).trace.countP Event.isTunnel
          = (Proxy.defaultHandler env p res req).trace.countP Event.isTunnel ∧
        (Proxy.defaultHandler env p res req2).trace.countP Event.isBuffered
          = (Proxy.defaultHandler env p res req).trace.countP Event.isBuffered) := by
  obtain ⟨h1, h2⟩ := forward_counts env p res req hb hr
  refine ⟨?_, ?_, h1, h2, ?_⟩
  · constructor
    · intro hc
      by_contra hs
      have := (h2 hs).1
      omega
    · intro hs
      exact (h1 hs).1
  · constructor
    · intro hc hs
      have := (h1 hs).2.1
      omega
    · intro hs
      exact (h2 hs).2.1
  · intro req2 hh
    obtain ⟨g1, g2⟩ := forward_counts env p res req2 hb hr
    have hiff : specIsStreamUpgrade env req2 ↔ specIsStreamUpgrade env req := by
      unfold specIsStreamUpgrade
      rw [hh]
    by_cases hs : specIsStreamUpgrade env req
    · have hs2 := hiff.2 hs
      rw [(g1 hs2).1, (g1 hs2).2.1, (h1 hs).1, (h1 hs).2.1]
      exact ⟨rfl, rfl⟩
    · have hs2 : ¬ specIsStreamUpgrade env req2 := fun h => hs (hiff.1 h)
      rw [(g2 hs2).1, (g2 hs2).2.1, (h2 hs).1, (h2 hs).2.1]
      exact ⟨rfl, rfl⟩

theorem defaultHandler_classification_witness :
    (demoProxy.builder.Errors = "" ∧
      (demoProxy.runner.Run = none ∨ demoProxy.killOnErr = false)) ∧
    (((Proxy.defaultHandler envOk demoProxy (.hijacker none) demoReq).trace.countP
          Event.isTunnel = 1 ↔ specIsStreamUpgrade envOk demoReq) ∧
      ((Proxy.defaultHandler envOk demoProxy (.hijacker none) demoReq).trace.countP
          Event.isBuffered = 1 ↔ ¬ specIsStreamUpgrade envOk demoReq) ∧
      (specIsStreamUpgrade envOk demoReq →
        (Proxy.defaultHandler envOk demoProxy (.hijacker none) demoReq).trace.countP
          Event.isTunnel = 1 ∧
        (Proxy.defaultHandler envOk demoProxy (.hijacker none) demoReq).trace.countP
          Event.isBuffered = 0 ∧
        Event.proxyWebsocket demoReq demoProxy.toUrl ∈
          (Proxy.defaultHandler envOk demoProxy (.hijacker none) demoReq).trace) ∧
      (¬ specIsStreamUpgrade envOk demoReq →
        (Proxy.defaultHandler envOk demoProxy (.hijacker none) demoReq).trace.countP
          Event.isTunnel = 0 ∧
        (Proxy.defaultHandler envOk demoProxy (.hijacker none) demoReq).trace.countP
          Event.isBuffered = 1 ∧
        Event.serveHTTP demoProxy.proxy demoReq ∈
          (Proxy.defaultHandler envOk demoProxy (.hijacker none) demoReq).trace) ∧
      (∀ req2 : Request, req2.Header = demoReq.Header →
        (Proxy.defaultHandler envOk demoProxy (.hijacker none) req2).trace.countP
            Event.isTunnel
          = (Proxy.defaultHandler envOk demoProxy (.hijacker none) demoReq).trace.countP
            Event.isTunnel ∧
        (Proxy.defaultHandler envOk demoProxy (.hijacker none) req2).trace.countP
            Event.isBuffered
          = (Proxy.defaultHandler envOk demoProxy (.hijacker none) demoReq).trace.countP
            Event.isBuffered)) :=
  ⟨⟨by decide, Or.inl rfl⟩,
    defaultHandler_classification envOk demoProxy (.hijacker none) demoReq (by decide)
      (Or.inl rfl)⟩

/-! ## Process runner -/

/-- With an empty build error text, every run of `defaultHandler` starts with
the query of the build gate followed by the one invocation of the runner. -/
theorem defaultHandler_trace_split (env : Env) (p : Proxy) (res : ResponseWriter)
    (req : Request) (hb : p.builder.Errors = "") :
    ∃ post, (Proxy.defaultHandler env p res req).trace
        = Event.builderErrors :: Event.runnerRun :: post ∧
      post.countP Event.isRunnerRun = 0 := by
  have hpw := proxyWebsocket_countP_zero env res req p.toUrl Event.isRunnerRun
    isRunnerRun_of_action
  by_cases hkill : ∃ e, p.runner.Run = some e ∧ p.killOnErr = true
  · obtain ⟨e, hr, hk⟩ := hkill
    rw [defaultHandler_killed env p res req e hb hr hk]
    exact ⟨_, rfl, by simp [Event.isRunnerRun]⟩
  · have hr : p.runner.Run = none ∨ p.killOnErr = false := by
      cases h1 : p.runner.Run with
      | none => exact Or.inl rfl
      | some e =>
        cases h2 : p.killOnErr with
        | false => exact Or.inr rfl
        | true => exact absurd ⟨e, h1, h2⟩ hkill
    by_cases hu : env.toLower (req.Header.Get "Upgrade") = "websocket"
    · rw [defaultHandler_tunnel_upgrade env p res req hb hr hu]
      refine ⟨_, by simp only [preludeTrace, List.cons_append, List.append_assoc]; rfl, ?_⟩
      cases hrun : p.runner.Run <;>
        simp [List.countP_append, List.countP_cons, hpw, Event.isRunnerRun]
    · by_cases ha : env.toLower (req.Header.Get "Accept") = "text/event-stream"
      · rw [defaultHandler_tunnel_accept env p res req hb hr hu ha]
        refine ⟨_, by simp only [preludeTrace, List.cons_append, List.append_assoc]; rfl, ?_⟩
        cases hrun : p.runner.Run <;>
          simp [List.countP_append, List.countP_cons, hpw, Event.isRunnerRun]
      · rw [defaultHandler_buffered env p res req hb hr hu ha]
        refine ⟨_, by simp only [preludeTrace, List.cons_append, List.append_assoc]; rfl, ?_⟩
        cases hrun : p.runner.Run <;>
          simp [List.countP_append, List.countP_cons, Event.isRunnerRun]

/-- C3: when `builder.Errors()` returns the empty text, `defaultHandler`
invokes `runner.Run` exactly once, and only the query of the build gate
precedes that invocation: every header read of the classification, every
entry into a forwarder and every action of the tunnel comes after it. -/
theorem defaultHandler_runner_once_before_forwarding (env : Env) (p : Proxy)
    (res : ResponseWriter) (req : Request) (hb : p.builder.Errors = "") :
    (Proxy.defaultHandler env p res req).trace.countP Event.isRunnerRun = 1 ∧
      ∃ pre post, (Proxy.defaultHandler env p res req).trace
          = pre ++ Event.runnerRun :: post ∧
        pre = [Event.builderErrors] ∧
        (∀ e ∈ pre, e.isRunnerRun = false ∧ e.isHeaderGet = false ∧ e.isForward = false ∧
          e.isTunnelAction = false) ∧
        (∀ e ∈ post, e.isRunnerRun = false) := by
  obtain ⟨post, ht, hp⟩ := defaultHandler_trace_split env p res req hb
  refine ⟨?_, [Event.builderErrors], post, ?_, rfl, ?_, ?_⟩
  · rw [ht]
    simp [List.countP_cons, hp, Event.isRunnerRun]
  · rw [ht]; rfl
  · intro e he
    simp only [List.mem_singleton] at he
    subst he
    exact ⟨rfl, rfl, rfl, rfl⟩
  · intro e he
    rw [List.countP_eq_zero] at hp
    simpa using hp e he

theorem defaultHandler_runner_once_before_forwarding_witness :
    demoProxy.builder.Errors = "" ∧
      ((Proxy.defaultHandler envOk demoProxy (.hijacker none) demoReq).trace.countP
          Event.isRunnerRun = 1 ∧
        ∃ pre post, (Proxy.defaultHandler envOk demoProxy (.hijacker none) demoReq).trace
            = pre ++ Event.runnerRun :: post ∧
          pre = [Event.builderErrors] ∧
          (∀ e ∈ pre, e.isRunnerRun = false ∧ e.isHeaderGet = false ∧ e.isForward = false ∧
            e.isTunnelAction = false) ∧
          (∀ e ∈ post, e.isRunnerRun = false)) :=
  ⟨by decide,
    defaultHandler_runner_once_before_forwarding envOk demoProxy (.hijacker none) demoReq
      (by decide)⟩

/-! ## Degraded forwarding -/

/-- C5: with `killOnErr` off, an empty build error text and a failing
`runner.Run`, `defaultHandler` logs the failure and then does exactly what it
does after a successful run: the rest of the trace and the way the handler
ends are those of the same proxy with a succeeding runner.  The process is not
terminated, and the forwarder selected by the header classification is
invoked once, the other one not at all. -/
theorem defaultHandler_run_failure_forwards (env : Env) (p : Proxy)
    (res : ResponseWriter) (req : Request) (e : String) (hb : p.builder.Errors = "")
    (hr : p.runner.Run = some e) (hk : p.killOnErr = false) :
    (Proxy.defaultHandler env p res req).trace
        = [.builderErrors, .runnerRun, .log ("Error running: " ++ e)] ++
          (Proxy.defaultHandler env p.withRunnerOk res req).trace.drop 2 ∧
      (Proxy.defaultHandler env p.withRunnerOk res req).trace.take 2
        = [.builderErrors, .runnerRun] ∧
      (Proxy.defaultHandler env p res req).res
        = (Proxy.defaultHandler env p.withRunnerOk res req).res ∧
      (∀ ev ∈ (Proxy.defaultHandler env p res req).trace, ev.isExit = false) ∧
      (∀ code, (Proxy.defaultHandler env p res req).res ≠ .halt (.exited code)) ∧
      (specIsStreamUpgrade env req →
        (Proxy.defaultHandler env p res req).trace.countP Event.isTunnel = 1 ∧
        (Proxy.defaultHandler env p res req).trace.countP Event.isBuffered = 0) ∧
      (¬ specIsStreamUpgrade env req →
        (Proxy.defaultHandler env p res req).trace.countP Event.isTunnel = 0 ∧
        (Proxy.defaultHandler env p res req).trace.countP Event.isBuffered = 1) := by
  have hr1 : p.runner.Run = none ∨ p.killOnErr = false := Or.inr hk
  have hb2 : p.withRunnerOk.builder.Errors = "" := hb
  have hr2 : p.withRunnerOk.runner.Run = none ∨ p.withRunnerOk.killOnErr = false :=
    Or.inl rfl
  have hto : p.withRunnerOk.toUrl = p.toUrl := rfl
  have hpx : p.withRunnerOk.proxy = p.proxy := rfl
  have hp1 : preludeTrace p = [.builderErrors, .runnerRun, .log ("Error running: " ++ e)] := by
    simp [preludeTrace, hr]
  have hp2 : preludeTrace p.withRunnerOk = [.builderErrors, .runnerRun] := by
    simp [preludeTrace, Proxy.withRunnerOk]
  have hex : ∀ ev ∈ (proxyWebsocket env res req p.toUrl).trace, ev.isExit = false :=
    fun ev hev => isExit_of_action ev (proxyWebsocket_trace_actions env res req p.toUrl ev hev)
  obtain ⟨c1, c2⟩ := forward_counts env p res req hb hr1
  refine ⟨?_, ?_, ?_, ?_, ?_, fun hs => ⟨(c1 hs).1, (c1 hs).2.1⟩,
    fun hs => ⟨(c2 hs).1, (c2 hs).2.1⟩⟩
  all_goals
    by_cases hu : env.toLower (req.Header.Get "Upgrade") = "websocket"
    · try rw [defaultHandler_tunnel_upgrade env p res req hb hr1 hu]
      try rw [defaultHandler_tunnel_upgrade env p.withRunnerOk res req hb2 hr2 hu]
      simp [hp1, hp2, hto, Event.isExit, proxyWebsocket_not_exited]
      try exact hex
    · by_cases ha : env.toLower (req.Header.Get "Accept") = "text/event-stream"
      · try rw [defaultHandler_tunnel_accept env p res req hb hr1 hu ha]
        try rw [defaultHandler_tunnel_accept env p.withRunnerOk res req hb2 hr2 hu ha]
        simp [hp1, hp2, hto, Event.isExit, proxyWebsocket_not_exited]
        try exact hex
      · try rw [defaultHandler_buffered env p res req hb hr1 hu ha]
        try rw [defaultHandler_buffered env p.withRunnerOk res req hb2 hr2 hu ha]
        first | done | simp [hp1, hp2, hpx, Event.isExit]

theorem defaultHandler_run_failure_forwards_witness :
    (proxyRunFailsNoKill.builder.Errors = "" ∧
      proxyRunFailsNoKill.runner.Run = some "exec: not found" ∧
      proxyRunFailsNoKill.killOnErr = false) ∧
    ((Proxy.defaultHandler envOk proxyRunFailsNoKill .plain plainReq).trace
        = [.builderErrors, .runnerRun, .log ("Error running: " ++ "exec: not found")] ++
          (Proxy.defaultHandler envOk proxyRunFailsNoKill.withRunnerOk .plain
            plainReq).trace.drop 2 ∧
      (Proxy.defaultHandler envOk proxyRunFailsNoKill.withRunnerOk .plain plainReq).trace.take 2
        = [.builderErrors, .runnerRun] ∧
      (Proxy.defaultHandler envOk proxyRunFailsNoKill .plain plainReq).res
        = (Proxy.defaultHandler envOk proxyRunFailsNoKill.withRunnerOk .plain plainReq).res ∧
      (∀ ev ∈ (Proxy.defaultHandler envOk proxyRunFailsNoKill .plain plainReq).trace,
        ev.isExit = false) ∧
      (∀ code, (Proxy.defaultHandler envOk proxyRunFailsNoKill .plain plainReq).res
        ≠ .halt (.exited code)) ∧
      (specIsStreamUpgrade envOk plainReq →
        (Proxy.defaultHandler envOk proxyRunFailsNoKill .plain plainReq).trace.countP
          Event.isTunnel = 1 ∧
        (Proxy.defaultHandler envOk proxyRunFailsNoKill .plain plainReq).trace.countP
          Event.isBuffered = 0) ∧
      (¬ specIsStreamUpgrade envOk plainReq →
        (Proxy.defaultHandler envOk proxyRunFailsNoKill .plain plainReq).trace.countP
          Event.isTunnel = 0 ∧
        (Proxy.defaultHandler envOk proxyRunFailsNoKill .plain plainReq).trace.countP
          Event.isBuffered = 1)) :=
  ⟨by decide,
    defaultHandler_run_failure_forwards envOk proxyRunFailsNoKill .plain plainReq
      "exec: not found" (by decide) (by decide) (by decide)⟩

end Gimlet
